import Mathlib

/-!
Verification of the ChainReact Python SDK client
(`src/lib/sdk/python/chainreact_sdk.py`).

The SDK is a thin synchronous HTTP client: each public method builds one
HTTP request (method, url, query parameters, optional JSON body) from the
fixed configuration, issues it through a `requests.Session` whose headers
are set once in `__init__`, and then post-processes the server outcome.
We embed it shallowly:

* `Json` models Python values produced by JSON decoding (`response.json()`),
  with objects as ordered association lists (Python dicts from JSON parses
  have unique keys).
* `HttpOutcome` models what the transport can observe: a connection-level
  failure (a `requests.exceptions.RequestException` with no response) or a
  response carrying a status code and a body; the body is `none` when it is
  not a valid JSON document (so `response.json()` raises).
* `issuedRequest` gives, for each public SDK call, the exact HTTP request
  the Python code builds (method, url, headers from the session, query
  params, JSON body).
* `sdkRequest` embeds `ChainReactSDK._request`: success parsing,
  `raise_for_status`, the best-effort extraction of an `error` field from
  error bodies, and the two `ChainReactSDKError` raise sites (`API Error`
  and `Request Error`).
* `runCall` embeds the per-method response post-processing
  (`response["data"]` lookups, dataclass construction via `Workflow(**d)`,
  list comprehensions), with Python runtime failures (`KeyError`,
  `TypeError`) modelled explicitly in `PyError`, since dataclass
  construction performs no runtime type checks and subscript/keyword
  errors are not caught by the SDK.
-/

namespace ChainReact

/-- Values produced by Python JSON decoding. Numbers are modelled as
integers (no claim depends on floats). -/
inductive Json where
  | null : Json
  | bool : Bool → Json
  | num : Int → Json
  | str : String → Json
  | arr : List Json → Json
  | obj : List (String × Json) → Json

/-- Whether a JSON value is an object containing the key `k`
(Python `k in d`). -/
def Json.hasKey (j : Json) (k : String) : Bool :=
  match j with
  | .obj fields => fields.any (fun p => p.1 == k)
  | _ => false

/-- Object lookup (`d.get(k)` on a dict; `none` on a non-object or a
missing key). -/
def Json.objGet? (j : Json) (k : String) : Option Json :=
  match j with
  | .obj fields => (fields.find? (fun p => p.1 == k)).map Prod.snd
  | _ => none

/-- Object lookup with a default. -/
def Json.objGetD (j : Json) (k : String) (d : Json) : Json :=
  (j.objGet? k).getD d

mutual

/-- Python `str()` of a decoded JSON value, as interpolated by the
f-string at the `ChainReactSDKError` raise site. -/
def pyStr : Json → String
  | .null => "None"
  | .bool true => "True"
  | .bool false => "False"
  | .num n => toString n
  | .str s => s
  | .arr xs => "[" ++ pyReprList xs ++ "]"
  | .obj fs => "\x7b" ++ pyReprFields fs ++ "\x7d"

/-- Python `repr()` of a decoded JSON value (used for elements inside
containers). -/
def pyRepr : Json → String
  | .null => "None"
  | .bool true => "True"
  | .bool false => "False"
  | .num n => toString n
  | .str s => "\x27" ++ s ++ "\x27"
  | .arr xs => "[" ++ pyReprList xs ++ "]"
  | .obj fs => "\x7b" ++ pyReprFields fs ++ "\x7d"

/-- Comma-separated reprs of list elements. -/
def pyReprList : List Json → String
  | [] => ""
  | [x] => pyRepr x
  | x :: y :: xs => pyRepr x ++ ", " ++ pyReprList (y :: xs)

/-- Comma-separated reprs of dict entries. -/
def pyReprFields : List (String × Json) → String
  | [] => ""
  | [p] => "\x27" ++ p.1 ++ "\x27: " ++ pyRepr p.2
  | p :: q :: fs => "\x27" ++ p.1 ++ "\x27: " ++ pyRepr p.2 ++ ", " ++ pyReprFields (q :: fs)

end

/-- Python truthiness of an `Optional[str]` value: `None` and the empty
string are falsy. -/
def strTruthy : Option String → Bool
  | some s => !(s == "")
  | none => false

/-- Python truthiness of an optional container (`Optional[Dict]`,
`Optional[List]`): `None` and the empty container are falsy. -/
def optListTruthy {α : Type} : Option (List α) → Bool
  | some l => !l.isEmpty
  | none => false

/-- The `ChainReactConfig` dataclass. -/
structure ChainReactConfig where
  api_key : String
  base_url : String := "https://api.chainreact.dev"

/-- The `CreateWorkflowRequest` dataclass. `none` models the default
`None`; `some ""` / `some []` model explicitly supplied empty values. -/
structure CreateWorkflowRequest where
  name : String
  nodes : List Json
  connections : List Json
  description : Option String := none
  «variables» : Option (List (String × Json)) := none
  configuration : Option (List (String × Json)) := none

/-- The `CreateWebhookRequest` dataclass. -/
structure CreateWebhookRequest where
  name : String
  event_types : List String
  target_url : String
  secret_key : Option String := none
  headers : Option (List (String × String)) := none

/-- The `Workflow` dataclass. Python dataclass construction performs no
runtime type checks, so every field simply holds the JSON value bound to
the corresponding keyword argument. -/
structure Workflow where
  id : Json
  name : Json
  description : Json
  nodes : Json
  connections : Json
  «variables» : Json
  configuration : Json
  status : Json
  created_at : Json
  updated_at : Json

/-- The `WebhookSubscription` dataclass, fields as bound keyword
arguments. -/
structure WebhookSubscription where
  id : Json
  name : Json
  event_types : Json
  target_url : Json
  is_active : Json
  created_at : Json

/-- The `PaginatedResponse` dataclass: the mapped data list plus the raw
`pagination` value (unchecked at runtime). -/
structure PaginatedResponse where
  data : List Workflow
  pagination : Json

/-- The two `ChainReactSDKError` raise sites in `_request`:
`API Error: {status_code} - {message}` for an HTTP error status, and
`Request Error: {message}` for a `RequestException` (connection-level
failure, or a JSON decode failure on a success body). -/
inductive SDKError where
  | apiError : Nat → String → SDKError
  | requestError : String → SDKError

/-- The message string passed to the `ChainReactSDKError` constructor. -/
def SDKError.message : SDKError → String
  | .apiError status msg => "API Error: " ++ toString status ++ " - " ++ msg
  | .requestError msg => "Request Error: " ++ msg

/-- The HTTP status code an error carries, when it carries one. -/
def SDKError.statusCode : SDKError → Option Nat
  | .apiError status _ => some status
  | .requestError _ => none

/-- Exceptions that can escape an SDK call: the wrapped
`ChainReactSDKError`, or a raw Python `KeyError` / `TypeError` raised by
the response post-processing outside the `try` block of `_request`. -/
inductive PyError where
  | sdkError : SDKError → PyError
  | keyError : String → PyError
  | typeError : String → PyError

/-- Whether an escaped exception is the SDK error type
`ChainReactSDKError`. -/
def PyError.isSDKError : PyError → Bool
  | .sdkError _ => true
  | _ => false

/-- What the transport observes for one call: either no response at all
(`requests.exceptions.RequestException` before a response exists), or a
response with a status code and a body, with `body = none` when the body
is not a valid JSON document. -/
inductive HttpOutcome where
  | networkFailure : String → HttpOutcome
  | response : Nat → Option Json → HttpOutcome

/-- Whether `response.raise_for_status()` raises: requests raises
`HTTPError` exactly for 4xx and 5xx status codes. -/
def isErrorStatus (status : Nat) : Bool :=
  400 ≤ status && status < 600

/-- Models `str(e)` for the `requests.exceptions.HTTPError` raised by
`raise_for_status`: a generic text determined by the status code (the
real text also interpolates the reason phrase and url, which no claim
depends on). -/
def httpErrorStr (status : Nat) : String :=
  if status < 500 then
    toString status ++ " Client Error for url"
  else
    toString status ++ " Server Error for url"

/-- Models `str(e)` for the JSON decode error raised by
`response.json()` on a body that is not valid JSON. -/
def jsonDecodeMsg : String := "Expecting value: line 1 column 1 (char 0)"

/-- The error message resolved by the inner `try` of `_request` on an
HTTP error status: parse the body, take its `error` field; on any
failure (body not JSON, body not a dict so `.get` raises
`AttributeError`, or `error` key absent) fall back to `str(e)` of the
`HTTPError`. -/
def resolveErrorMessage (status : Nat) (body : Option Json) : String :=
  match body with
  | none => httpErrorStr status
  | some j =>
    match j with
    | .obj fields =>
      match fields.find? (fun p => p.1 == "error") with
      | some p => pyStr p.2
      | none => httpErrorStr status
    | _ => httpErrorStr status

/-- Embeds `ChainReactSDK._request` applied to a transport outcome:
returns the parsed JSON body on a success status; raises
`ChainReactSDKError` with an `API Error` message on an HTTP error status
and with a `Request Error` message on a connection-level failure or a
JSON decode failure of a success body (`requests` JSON decode errors are
`RequestException` subclasses, caught by the second handler). -/
def sdkRequest (outcome : HttpOutcome) : Except SDKError Json :=
  match outcome with
  | .networkFailure msg => .error (.requestError msg)
  | .response status body =>
    if isErrorStatus status then
      .error (.apiError status (resolveErrorMessage status body))
    else
      match body with
      | some j => .ok j
      | none => .error (.requestError jsonDecodeMsg)

/-- The JSON body built by `create_workflow`: `name`, `nodes`,
`connections` always, then `description` / `variables` / `configuration`
each inserted only when the field is truthy (`if workflow.description:`
and so on). -/
def createWorkflowPayload (w : CreateWorkflowRequest) : Json :=
  Json.obj
    ([("name", Json.str w.name),
      ("nodes", Json.arr w.nodes),
      ("connections", Json.arr w.connections)]
     ++ (match w.description with
         | some s => if s == "" then [] else [("description", Json.str s)]
         | none => [])
     ++ (match w.variables with
         | some v => if v.isEmpty then [] else [("variables", Json.obj v)]
         | none => [])
     ++ (match w.configuration with
         | some c => if c.isEmpty then [] else [("configuration", Json.obj c)]
         | none => []))

/-- The JSON body built by `create_webhook`: `name`, `event_types`,
`target_url` always, then `secret_key` / `headers` only when truthy. -/
def createWebhookPayload (w : CreateWebhookRequest) : Json :=
  Json.obj
    ([("name", Json.str w.name),
      ("event_types", Json.arr (w.event_types.map Json.str)),
      ("target_url", Json.str w.target_url)]
     ++ (match w.secret_key with
         | some s => if s == "" then [] else [("secret_key", Json.str s)]
         | none => [])
     ++ (match w.headers with
         | some h =>
           if h.isEmpty then []
           else [("headers", Json.obj (h.map (fun p => (p.1, Json.str p.2))))]
         | none => []))

/-- The JSON body built by `execute_workflow`:
`data = {"input": input_data} if input_data else {}`, so the `input` key
is present exactly when the supplied dict is truthy (non-`None` and
non-empty). -/
def executeBody (input : Option (List (String × Json))) : Json :=
  match input with
  | some d => if d.isEmpty then Json.obj [] else Json.obj [("input", Json.obj d)]
  | none => Json.obj []

/-- The query parameters built by `get_usage_analytics`: `granularity`
always, `start_date` / `end_date` only when truthy. -/
def analyticsParams (start_date end_date : Option String) (granularity : String) :
    List (String × Json) :=
  [("granularity", Json.str granularity)]
  ++ (match start_date with
      | some s => if s == "" then [] else [("start_date", Json.str s)]
      | none => [])
  ++ (match end_date with
      | some s => if s == "" then [] else [("end_date", Json.str s)]
      | none => [])

/-- One invocation of a public SDK method, with its arguments. -/
inductive SDKCall where
  | getWorkflows : Int → Int → SDKCall
  | getWorkflow : String → SDKCall
  | createWorkflow : CreateWorkflowRequest → SDKCall
  | updateWorkflow : String → List (String × Json) → SDKCall
  | deleteWorkflow : String → SDKCall
  | executeWorkflow : String → Option (List (String × Json)) → SDKCall
  | getWebhooks : SDKCall
  | createWebhook : CreateWebhookRequest → SDKCall
  | updateWebhook : String → List (String × Json) → SDKCall
  | deleteWebhook : String → SDKCall
  | getUsageAnalytics : Option String → Option String → String → SDKCall

/-- The headers installed on the `requests.Session` in
`ChainReactSDK.__init__` and therefore sent with every request. -/
def sessionHeaders (config : ChainReactConfig) : List (String × String) :=
  [("Authorization", "Bearer " ++ config.api_key),
   ("Content-Type", "application/json")]

/-- One HTTP request as handed to `session.request`: method, url
(`f"{base_url}{endpoint}"`), the session headers, query parameters
(`params=`), and the JSON body (`json=`). -/
structure HttpRequest where
  method : String
  url : String
  headers : List (String × String)
  params : List (String × Json)
  body : Option Json

/-- The exact HTTP request each public SDK method builds. -/
def issuedRequest (config : ChainReactConfig) : SDKCall → HttpRequest
  | .getWorkflows page limit =>
    { method := "GET", url := config.base_url ++ "/api/v1/workflows",
      headers := sessionHeaders config,
      params := [("page", Json.num page), ("limit", Json.num limit)],
      body := none }
  | .getWorkflow workflow_id =>
    { method := "GET",
      url := config.base_url ++ "/api/v1/workflows/" ++ workflow_id,
      headers := sessionHeaders config, params := [], body := none }
  | .createWorkflow w =>
    { method := "POST", url := config.base_url ++ "/api/v1/workflows",
      headers := sessionHeaders config, params := [],
      body := some (createWorkflowPayload w) }
  | .updateWorkflow workflow_id patch =>
    { method := "PUT",
      url := config.base_url ++ "/api/v1/workflows/" ++ workflow_id,
      headers := sessionHeaders config, params := [],
      body := some (Json.obj patch) }
  | .deleteWorkflow workflow_id =>
    { method := "DELETE",
      url := config.base_url ++ "/api/v1/workflows/" ++ workflow_id,
      headers := sessionHeaders config, params := [], body := none }
  | .executeWorkflow workflow_id input =>
    { method := "POST",
      url := config.base_url ++ "/api/v1/workflows/" ++ workflow_id ++ "/execute",
      headers := sessionHeaders config, params := [],
      body := some (executeBody input) }
  | .getWebhooks =>
    { method := "GET", url := config.base_url ++ "/api/v1/webhooks",
      headers := sessionHeaders config, params := [], body := none }
  | .createWebhook w =>
    { method := "POST", url := config.base_url ++ "/api/v1/webhooks",
      headers := sessionHeaders config, params := [],
      body := some (createWebhookPayload w) }
  | .updateWebhook webhook_id patch =>
    { method := "PUT",
      url := config.base_url ++ "/api/v1/webhooks/" ++ webhook_id,
      headers := sessionHeaders config, params := [],
      body := some (Json.obj patch) }
  | .deleteWebhook webhook_id =>
    { method := "DELETE",
      url := config.base_url ++ "/api/v1/webhooks/" ++ webhook_id,
      headers := sessionHeaders config, params := [], body := none }
  | .getUsageAnalytics start_date end_date granularity =>
    { method := "GET", url := config.base_url ++ "/api/v1/analytics/usage",
      headers := sessionHeaders config,
      params := analyticsParams start_date end_date granularity,
      body := none }

/-- Python subscript `j[k]` with a string key: a value on a dict holding
the key, `KeyError` on a dict lacking it, `TypeError` on any non-dict. -/
def pyGetItem (j : Json) (k : String) : Except PyError Json :=
  match j with
  | .obj fields =>
    match fields.find? (fun p => p.1 == k) with
    | some p => .ok p.2
    | none => .error (.keyError k)
  | _ => .error (.typeError "value is not subscriptable by a string key")

/-- The keyword arguments `Workflow(**d)` requires: the dataclass has no
defaults, so construction succeeds exactly when the keys of `d` are the
field names. -/
def workflowFieldNames : List String :=
  ["id", "name", "description", "nodes", "connections", "variables",
   "configuration", "status", "created_at", "updated_at"]

/-- Embeds `Workflow(**d)`: `TypeError` unless `d` is a mapping whose
keys are exactly the dataclass fields; no value is type-checked. -/
def Workflow.ofJson (j : Json) : Except PyError Workflow :=
  match j with
  | .obj fields =>
    if (fields.map Prod.fst).isPerm workflowFieldNames then
      .ok { id := (Json.obj fields).objGetD "id" .null,
            name := (Json.obj fields).objGetD "name" .null,
            description := (Json.obj fields).objGetD "description" .null,
            nodes := (Json.obj fields).objGetD "nodes" .null,
            connections := (Json.obj fields).objGetD "connections" .null,
            «variables» := (Json.obj fields).objGetD "variables" .null,
            configuration := (Json.obj fields).objGetD "configuration" .null,
            status := (Json.obj fields).objGetD "status" .null,
            created_at := (Json.obj fields).objGetD "created_at" .null,
            updated_at := (Json.obj fields).objGetD "updated_at" .null }
    else .error (.typeError "Workflow() keyword arguments do not match its fields")
  | _ => .error (.typeError "argument after ** must be a mapping")

/-- The keyword arguments `WebhookSubscription(**d)` requires. -/
def webhookFieldNames : List String :=
  ["id", "name", "event_types", "target_url", "is_active", "created_at"]

/-- Embeds `WebhookSubscription(**d)` in the same way. -/
def WebhookSubscription.ofJson (j : Json) : Except PyError WebhookSubscription :=
  match j with
  | .obj fields =>
    if (fields.map Prod.fst).isPerm webhookFieldNames then
      .ok { id := (Json.obj fields).objGetD "id" .null,
            name := (Json.obj fields).objGetD "name" .null,
            event_types := (Json.obj fields).objGetD "event_types" .null,
            target_url := (Json.obj fields).objGetD "target_url" .null,
            is_active := (Json.obj fields).objGetD "is_active" .null,
            created_at := (Json.obj fields).objGetD "created_at" .null }
    else .error (.typeError "WebhookSubscription() keyword arguments do not match its fields")
  | _ => .error (.typeError "argument after ** must be a mapping")

/-- Embeds the list comprehension `[Workflow(**w) for w in v]`: Python
iterates lists elementwise; iterating an empty dict or empty string
yields nothing; iterating a non-empty dict or string yields strings,
and `Workflow(**s)` on a string is a `TypeError`; other values are not
iterable. -/
def workflowsOfJson : Json → Except PyError (List Workflow)
  | .arr xs => xs.mapM Workflow.ofJson
  | .obj [] => .ok []
  | .obj (_ :: _) => .error (.typeError "argument after ** must be a mapping")
  | .str "" => .ok []
  | .str _ => .error (.typeError "argument after ** must be a mapping")
  | _ => .error (.typeError "value is not iterable")

/-- Embeds `[WebhookSubscription(**w) for w in v]` in the same way. -/
def webhooksOfJson : Json → Except PyError (List WebhookSubscription)
  | .arr xs => xs.mapM WebhookSubscription.ofJson
  | .obj [] => .ok []
  | .obj (_ :: _) => .error (.typeError "argument after ** must be a mapping")
  | .str "" => .ok []
  | .str _ => .error (.typeError "argument after ** must be a mapping")
  | _ => .error (.typeError "value is not iterable")

/-- The value a public SDK method returns on success. -/
inductive CallResult where
  | workflows : PaginatedResponse → CallResult
  | workflow : Workflow → CallResult
  | unit : CallResult
  | executionId : Json → CallResult
  | webhooks : List WebhookSubscription → CallResult
  | webhook : WebhookSubscription → CallResult
  | analytics : Json → CallResult

/-- Embeds one full SDK call applied to a transport outcome: `_request`
first (its `ChainReactSDKError` wrapped into `PyError.sdkError`), then
the per-method post-processing of the parsed body, whose own failures
are raw `KeyError` / `TypeError` values. Lookup order follows Python
evaluation order (in `get_workflows` the `data` comprehension runs
before the `pagination` lookup). -/
def runCall (call : SDKCall) (outcome : HttpOutcome) : Except PyError CallResult := do
  let j ← (sdkRequest outcome).mapError PyError.sdkError
  match call with
  | .getWorkflows _ _ => do
    let d ← pyGetItem j "data"
    let ws ← workflowsOfJson d
    let p ← pyGetItem j "pagination"
    .ok (.workflows { data := ws, pagination := p })
  | .getWorkflow _ => do
    let d ← pyGetItem j "data"
    let w ← Workflow.ofJson d
    .ok (.workflow w)
  | .createWorkflow _ => do
    let d ← pyGetItem j "data"
    let w ← Workflow.ofJson d
    .ok (.workflow w)
  | .updateWorkflow _ _ => do
    let d ← pyGetItem j "data"
    let w ← Workflow.ofJson d
    .ok (.workflow w)
  | .deleteWorkflow _ => .ok .unit
  | .executeWorkflow _ _ => do
    let d ← pyGetItem j "data"
    let e ← pyGetItem d "execution_id"
    .ok (.executionId e)
  | .getWebhooks => do
    let d ← pyGetItem j "data"
    let ws ← webhooksOfJson d
    .ok (.webhooks ws)
  | .createWebhook _ => do
    let d ← pyGetItem j "data"
    let w ← WebhookSubscription.ofJson d
    .ok (.webhook w)
  | .updateWebhook _ _ => do
    let d ← pyGetItem j "data"
    let w ← WebhookSubscription.ofJson d
    .ok (.webhook w)
  | .deleteWebhook _ => .ok .unit
  | .getUsageAnalytics _ _ _ => do
    let d ← pyGetItem j "data"
    .ok (.analytics d)

/-- Whether a transport outcome is a failure before any body mapping
happens: a connection-level failure or an HTTP error status. -/
def isFailureOutcome : HttpOutcome → Bool
  | .networkFailure _ => true
  | .response status _ => isErrorStatus status

/-- The `error` field an error-status body exposes to the inner `try` of
`_request`: `none` when the body is not valid JSON, is not a JSON
object, or lacks the key. -/
def errorFieldOf : Option Json → Option Json
  | none => none
  | some j => j.objGet? "error"

/-- Whether a call outcome is a raised `ChainReactSDKError` (as opposed
to a normal return or an escaped raw Python exception). -/
def raisesSDKError : Except PyError CallResult → Bool
  | .error e => e.isSDKError
  | .ok _ => false

/-- On an error status whose body exposes no `error` field, the inner
handler of `_request` resolves the fallback message `str(e)` of the
`HTTPError`. -/
theorem resolveErrorMessage_of_no_error_field (status : Nat) (body : Option Json)
    (hb : errorFieldOf body = none) :
    resolveErrorMessage status body = httpErrorStr status := by
  cases body with
  | none => rfl
  | some j =>
    cases j <;>
      simp only [errorFieldOf, Json.objGet?, Option.map_eq_none'] at hb <;>
      simp [resolveErrorMessage, hb]

/-- Claim C1, counterexample. A `CreateWorkflowRequest` with an
explicitly supplied empty `description` (`some ""`, distinct from the
absent `none`) still has the `description` key omitted from the
outgoing payload, because `create_workflow` tests Python truthiness
(`if workflow.description:`), not presence; the claim states such a key
is still sent. -/
theorem create_workflow_explicit_empty_still_omitted :
    (createWorkflowPayload
      { name := "w", nodes := [], connections := [],
        description := some "" }).hasKey "description" = false := by
  rfl

/-- Claim C1, amended. The payload of `create_workflow` contains each
optional key `description` / `variables` / `configuration` exactly when
the corresponding field is truthy (present and non-empty), and never
binds one of those keys to JSON null; absence and an explicitly
supplied empty value are treated alike (both omitted). -/
theorem create_workflow_optional_keys_iff_truthy (w : CreateWorkflowRequest) :
    ((createWorkflowPayload w).hasKey "description" = strTruthy w.description)
    ∧ ((createWorkflowPayload w).hasKey "variables" = optListTruthy w.variables)
    ∧ ((createWorkflowPayload w).hasKey "configuration" = optListTruthy w.configuration)
    ∧ ((createWorkflowPayload w).objGet? "description" ≠ some Json.null)
    ∧ ((createWorkflowPayload w).objGet? "variables" ≠ some Json.null)
    ∧ ((createWorkflowPayload w).objGet? "configuration" ≠ some Json.null) := by
  rcases w with ⟨nm, nd, cn, d, v, c⟩
  refine ⟨?_, ?_, ?_, ?_, ?_, ?_⟩ <;>
  · cases d <;> cases v <;> cases c <;>
      simp [createWorkflowPayload, Json.hasKey, Json.objGet?, strTruthy, optListTruthy,
        List.any_append, List.find?_append] <;>
      split_ifs <;> simp_all [List.find?]

/-- Claim C2. A 404 response whose body is
`{"error": "workflow not found"}` makes every operation raise
`ChainReactSDKError` built from status 404 and the message
`workflow not found`; the raised error carries status code 404 and its
message string contains `workflow not found`. -/
theorem not_found_response_error_message_and_status (call : SDKCall) :
    (runCall call (.response 404 (some (Json.obj [("error", Json.str "workflow not found")])))
      = .error (.sdkError (.apiError 404 "workflow not found")))
    ∧ (SDKError.statusCode (.apiError 404 "workflow not found") = some 404)
    ∧ (∃ a b, SDKError.message (.apiError 404 "workflow not found")
        = a ++ "workflow not found" ++ b) :=
  ⟨rfl, rfl, ⟨"API Error: 404 - ", "", rfl⟩⟩

/-- Claim C3, counterexample. A success response whose valid JSON body
lacks the `data` key makes `get_workflow` raise a raw Python `KeyError`
from `response["data"]`, outside the `try` block of `_request`; the
escaping exception is not a `ChainReactSDKError`, so not every failure
surfaces as the single SDK error type. -/
theorem malformed_success_body_escapes_as_key_error :
    (runCall (.getWorkflow "wf1") (.response 200 (some (Json.obj [])))
      = .error (.keyError "data"))
    ∧ (PyError.isSDKError (.keyError "data") = false)
    ∧ (raisesSDKError (runCall (.getWorkflow "wf1") (.response 200 (some (Json.obj []))))
      = false) :=
  ⟨rfl, rfl, rfl⟩

/-- Claim C3, amended. Every connection-level failure and every HTTP
error status surfaces, for every operation, as the single error type
`ChainReactSDKError`; but on a success status the mapping of a
malformed body can escape as a raw Python exception (for example a
`KeyError`), so atomicity holds only up to those unmapped-body
exceptions. -/
theorem transport_and_http_failures_raise_sdk_error (call : SDKCall)
    (outcome : HttpOutcome) (h : isFailureOutcome outcome = true) :
    raisesSDKError (runCall call outcome) = true := by
  cases outcome with
  | networkFailure msg => rfl
  | response status body =>
    simp only [isFailureOutcome] at h
    simp [runCall, sdkRequest, h]
    rfl

/-- Witness for the amended claim C3 at a concrete connection failure. -/
theorem transport_and_http_failures_raise_sdk_error_witness :
    (isFailureOutcome (.networkFailure "Connection refused") = true)
    ∧ (raisesSDKError (runCall (.getWorkflow "wf1") (.networkFailure "Connection refused"))
      = true) :=
  ⟨rfl, transport_and_http_failures_raise_sdk_error (.getWorkflow "wf1")
    (.networkFailure "Connection refused") rfl⟩

/-- Claim C4, counterexample. With an explicitly supplied empty input
dict, `execute_workflow` sends the empty JSON object, not
`{"input": {}}`, because the body is chosen by Python truthiness
(`if input_data`); the claim states any supplied `d` is sent as
`{"input": d}`. -/
theorem execute_workflow_empty_input_body_counterexample :
    ((issuedRequest { api_key := "key" } (.executeWorkflow "wf1" (some []))).body
      = some (Json.obj []))
    ∧ ((issuedRequest { api_key := "key" } (.executeWorkflow "wf1" (some []))).body
      ≠ some (Json.obj [("input", Json.obj [])])) := by
  refine ⟨rfl, ?_⟩
  simp [issuedRequest, executeBody]

/-- Claim C4, amended. `execute_workflow(id)` with no input sends the
empty JSON object (no `input` key); with a non-empty input dict `d` it
sends exactly `{"input": d}` (an empty supplied dict is sent as the
empty object, like no input); in both cases the returned value is the
body value found at `response["data"]["execution_id"]`, handed back
unmodified. -/
theorem execute_workflow_body_and_execution_id (config : ChainReactConfig)
    (workflow_id : String) (d : List (String × Json)) (hd : d ≠ []) (e : Json) :
    ((issuedRequest config (.executeWorkflow workflow_id none)).body
      = some (Json.obj []))
    ∧ ((Json.obj []).hasKey "input" = false)
    ∧ ((issuedRequest config (.executeWorkflow workflow_id (some d))).body
      = some (Json.obj [("input", Json.obj d)]))
    ∧ (runCall (.executeWorkflow workflow_id (some d))
        (.response 200 (some (Json.obj [("data", Json.obj [("execution_id", e)])])))
      = .ok (.executionId e)) := by
  refine ⟨rfl, rfl, ?_, rfl⟩
  cases d with
  | nil => exact absurd rfl hd
  | cons p l => rfl

/-- Witness for the amended claim C4 at a concrete non-empty input. -/
theorem execute_workflow_body_and_execution_id_witness :
    (([(("x" : String), Json.num 1)] : List (String × Json)) ≠ [])
    ∧ (((issuedRequest { api_key := "key" }
          (.executeWorkflow "wf1" none)).body = some (Json.obj []))
      ∧ ((Json.obj []).hasKey "input" = false)
      ∧ ((issuedRequest { api_key := "key" }
          (.executeWorkflow "wf1" (some [("x", Json.num 1)]))).body
        = some (Json.obj [("input", Json.obj [("x", Json.num 1)])]))
      ∧ (runCall (.executeWorkflow "wf1" (some [("x", Json.num 1)]))
          (.response 200 (some (Json.obj
            [("data", Json.obj [("execution_id", Json.str "exec_123")])])))
        = .ok (.executionId (Json.str "exec_123")))) :=
  ⟨by simp,
   execute_workflow_body_and_execution_id { api_key := "key" } "wf1"
     [("x", Json.num 1)] (by simp) (Json.str "exec_123")⟩

/-- Claim C5. On any HTTP error status whose body exposes no `error`
field (because the body is not valid JSON, is not an object, or lacks
the key), every operation still raises `ChainReactSDKError`, with the
message fallen back to the generic status-derived `str(e)` of the
`HTTPError`; no JSON parse failure on an error body escapes. -/
theorem http_error_without_error_field_falls_back (call : SDKCall)
    (status : Nat) (body : Option Json)
    (hs : isErrorStatus status = true) (hb : errorFieldOf body = none) :
    runCall call (.response status body)
      = .error (.sdkError (.apiError status (httpErrorStr status))) := by
  have hmsg := resolveErrorMessage_of_no_error_field status body hb
  simp [runCall, sdkRequest, hs, hmsg]
  rfl

/-- Witness for claim C5 at a concrete 404 with a JSON body lacking an
`error` field. -/
theorem http_error_without_error_field_falls_back_witness :
    (isErrorStatus 404 = true)
    ∧ (errorFieldOf (some (Json.obj [("detail", Json.str "oops")])) = none)
    ∧ (runCall (.getWorkflow "wf1")
        (.response 404 (some (Json.obj [("detail", Json.str "oops")])))
      = .error (.sdkError (.apiError 404 (httpErrorStr 404)))) :=
  ⟨rfl, rfl,
   http_error_without_error_field_falls_back (.getWorkflow "wf1") 404
     (some (Json.obj [("detail", Json.str "oops")])) rfl rfl⟩

/-- Claim C6. On a connection-level failure (no response obtained),
every operation raises `ChainReactSDKError` built at the
`Request Error` raise site: it carries no HTTP status code and its
message contains the underlying transport failure message. -/
theorem network_failure_raises_request_error (call : SDKCall) (msg : String) :
    (runCall call (.networkFailure msg) = .error (.sdkError (.requestError msg)))
    ∧ (SDKError.statusCode (.requestError msg) = none)
    ∧ (∃ a b, SDKError.message (.requestError msg) = a ++ msg ++ b) :=
  ⟨rfl, rfl, ⟨"Request Error: ", "", by simp [SDKError.message]⟩⟩

/-- Claim C7. `update_workflow(id, **patch)` and
`update_webhook(id, **patch)` issue a PUT to the resource path whose
entire JSON body is exactly the supplied patch object: every supplied
field (falsy or empty included) appears unchanged and nothing is
added. -/
theorem update_sends_exactly_the_patch (config : ChainReactConfig)
    (res_id : String) (patch : List (String × Json)) :
    ((issuedRequest config (.updateWorkflow res_id patch)).method = "PUT")
    ∧ ((issuedRequest config (.updateWorkflow res_id patch)).url
      = config.base_url ++ "/api/v1/workflows/" ++ res_id)
    ∧ ((issuedRequest config (.updateWorkflow res_id patch)).body
      = some (Json.obj patch))
    ∧ ((issuedRequest config (.updateWebhook res_id patch)).method = "PUT")
    ∧ ((issuedRequest config (.updateWebhook res_id patch)).url
      = config.base_url ++ "/api/v1/webhooks/" ++ res_id)
    ∧ ((issuedRequest config (.updateWebhook res_id patch)).body
      = some (Json.obj patch)) :=
  ⟨rfl, rfl, rfl, rfl, rfl, rfl⟩

/-- Claim C8. The `create_workflow` payload always contains `name`,
`nodes`, `connections`, and contains `description` / `variables` /
`configuration` exactly when the field is truthy (non-null and
non-empty); the `create_webhook` payload always contains `name`,
`event_types`, `target_url`, and contains `secret_key` / `headers`
exactly when truthy. -/
theorem create_payloads_mandatory_and_conditional_keys
    (wf : CreateWorkflowRequest) (wh : CreateWebhookRequest) :
    ((createWorkflowPayload wf).hasKey "name" = true)
    ∧ ((createWorkflowPayload wf).hasKey "nodes" = true)
    ∧ ((createWorkflowPayload wf).hasKey "connections" = true)
    ∧ ((createWorkflowPayload wf).hasKey "description" = strTruthy wf.description)
    ∧ ((createWorkflowPayload wf).hasKey "variables" = optListTruthy wf.variables)
    ∧ ((createWorkflowPayload wf).hasKey "configuration" = optListTruthy wf.configuration)
    ∧ ((createWebhookPayload wh).hasKey "name" = true)
    ∧ ((createWebhookPayload wh).hasKey "event_types" = true)
    ∧ ((createWebhookPayload wh).hasKey "target_url" = true)
    ∧ ((createWebhookPayload wh).hasKey "secret_key" = strTruthy wh.secret_key)
    ∧ ((createWebhookPayload wh).hasKey "headers" = optListTruthy wh.headers) := by
  rcases wf with ⟨nm, nd, cn, d, v, c⟩
  rcases wh with ⟨n2, et, tu, sk, hd⟩
  refine ⟨?_, ?_, ?_, ?_, ?_, ?_, ?_, ?_, ?_, ?_, ?_⟩
  · simp [createWorkflowPayload, Json.hasKey]
  · simp [createWorkflowPayload, Json.hasKey]
  · simp [createWorkflowPayload, Json.hasKey]
  · cases d <;> cases v <;> cases c <;>
      simp [createWorkflowPayload, Json.hasKey, strTruthy, List.any_append] <;>
      split_ifs <;> simp_all
  · cases d <;> cases v <;> cases c <;>
      simp [createWorkflowPayload, Json.hasKey, optListTruthy, List.any_append] <;>
      split_ifs <;> simp_all
  · cases d <;> cases v <;> cases c <;>
      simp [createWorkflowPayload, Json.hasKey, optListTruthy, List.any_append] <;>
      split_ifs <;> simp_all
  · simp [createWebhookPayload, Json.hasKey]
  · simp [createWebhookPayload, Json.hasKey]
  · simp [createWebhookPayload, Json.hasKey]
  · cases sk <;> cases hd <;>
      simp [createWebhookPayload, Json.hasKey, strTruthy, List.any_append] <;>
      split_ifs <;> simp_all
  · cases sk <;> cases hd <;>
      simp [createWebhookPayload, Json.hasKey, optListTruthy, List.any_append] <;>
      split_ifs <;> simp_all

/-- Claim C9. Every HTTP request issued by every SDK operation carries
exactly the session headers installed at construction:
`Authorization: Bearer <api_key>` for the configured key, and
`Content-Type: application/json`; the headers are a function of the
configuration alone, identical across all calls. -/
theorem every_request_carries_session_headers (config : ChainReactConfig)
    (call : SDKCall) :
    (issuedRequest config call).headers
      = [("Authorization", "Bearer " ++ config.api_key),
         ("Content-Type", "application/json")] := by
  cases call <;> rfl

/-- Claim C10. Every operation, the body-less `delete_workflow` and
`delete_webhook` included, parses the success response body as JSON
unconditionally: a success-status response whose body is not a valid
JSON document (for example an empty 204 body) never returns normally —
the JSON decode failure is a `RequestException` subclass, caught and
re-raised as `ChainReactSDKError` at the `Request Error` site. -/
theorem success_nonjson_body_never_returns (call : SDKCall) (status : Nat)
    (h : isErrorStatus status = false) :
    runCall call (.response status none)
      = .error (.sdkError (.requestError jsonDecodeMsg)) := by
  simp [runCall, sdkRequest, h]
  rfl

/-- Witness for claim C10 at a concrete 204 delete with an empty body. -/
theorem success_nonjson_body_never_returns_witness :
    (isErrorStatus 204 = false)
    ∧ (runCall (.deleteWorkflow "wf1") (.response 204 none)
      = .error (.sdkError (.requestError jsonDecodeMsg))) :=
  ⟨rfl, success_nonjson_body_never_returns (.deleteWorkflow "wf1") 204 rfl⟩

end ChainReact
